import Mathlib

/-!
Shallow embedding of `src/main.py` of the AI Writing Assistant repository.

Python strings are modelled as `List Char` (`PyStr`); Python's `str.strip`,
`str.lower` and `str.startswith` become `pyStrip`, `pyLower`, `pyStartsWith`
(ASCII case mapping, as in `Char.toLower`; every string the program compares
case-insensitively is ASCII).  The remote Gemini endpoint is an oracle
`GenOracle : PyStr → Option ℚ → Except PyStr PyStr`: `Except.ok text` models a
response object whose `.text` is `text`, `Except.error e` models a raised
exception with message `e`.  The probe in `gemini_ready_check` calls the
oracle with temperature `none` (no generation config); `generate_response`
calls it with `some t`.  Python's builtin `float` parsing is an oracle
parameter `parseTemp : PyStr → Option ℚ` (`none` models a `ValueError`).
The observable behaviour of the program is a trace of `Event`s: console
prints, `input()` calls (with the prompt shown), remote generation calls, and
`sys.exit` codes.  User input is a list of strings consumed in order.
-/

abbrev PyStr := List Char

/-- Python whitespace characters stripped by `str.strip` (ASCII subset). -/
def isPySpace (c : Char) : Bool :=
  c == ' ' || c == '\t' || c == '\n' || c == '\r' ||
    c == Char.ofNat 11 || c == Char.ofNat 12

/-- Python `s.strip()`: remove leading and trailing whitespace. -/
def pyStrip (s : PyStr) : PyStr :=
  ((s.dropWhile isPySpace).reverse.dropWhile isPySpace).reverse

/-- Python `s.lower()` (ASCII case mapping). -/
def pyLower (s : PyStr) : PyStr := s.map Char.toLower

/-- Python `s.startswith(p)`. -/
def pyStartsWith (s p : PyStr) : Bool := p.isPrefixOf s

/-- One observable step of the program. -/
inductive Event where
  | print (s : PyStr)
  | ask (prompt : PyStr)
  | genCall (prompt : PyStr) (temperature : Option ℚ)
  | exitCode (n : Nat)
deriving DecidableEq

/-- The remote generation endpoint: prompt and optional temperature to either
a response text (`ok`) or a raised exception's message (`error`). -/
abbrev GenOracle := PyStr → Option ℚ → Except PyStr PyStr

/-- Reading one line from the input stream (`input()`). -/
def nextInput : List PyStr → PyStr × List PyStr
  | [] => ([], [])
  | x :: xs => (x, xs)

/-- `main.py` line 16: `API_KEY = getattr(config, "GEMINI_API_KEY", "").strip()`;
`none` models an absent `GEMINI_API_KEY` attribute. -/
def apiKeyOf (raw : Option PyStr) : PyStr := pyStrip (raw.getD [])

/-- `main.py` line 17: `if not API_KEY or not API_KEY.startswith("AIza")`.
`true` means the key is accepted. -/
def validApiKey (raw : Option PyStr) : Bool :=
  !(apiKeyOf raw).isEmpty && pyStartsWith (apiKeyOf raw) ("AIza".data)

/-- `main.py` line 18: the diagnostic printed for a bad key. -/
def keyErrorMsg : PyStr :=
  ":x: Error: Please set a valid GEMINI_API_KEY in config.py before running.".data

/-- `main.py` lines 23-40, `gemini_ready_check`: probe the endpoint with
"ping" and no generation config; returns the emitted events and the boolean
result. -/
def gemini_ready_check (gen : GenOracle) : List Event × Bool :=
  match gen ("ping".data) none with
  | Except.ok text =>
    if !(pyStrip text).isEmpty then
      ([Event.genCall ("ping".data) none,
        Event.print (":white_check_mark: Gemini API key verified successfully.\n".data)], true)
    else
      ([Event.genCall ("ping".data) none,
        Event.print (":warning: Connected, but empty response. Continuing anyway.\n".data)], true)
  | Except.error e =>
    ([Event.genCall ("ping".data) none,
      Event.print (":x: Gemini API key verification failed.\n".data),
      Event.print (("Reason: ".data) ++ e ++ ("\n".data)),
      Event.print (":compass: Fix checklist:".data),
      Event.print ("- Ensure you copied the full key from Google AI Studio.".data),
      Event.print ("- Enable 'Generative Language API' for your project.".data),
      Event.print ("- Remove API restrictions while testing.\n".data)], false)

/-- `main.py` lines 42-52, `generate_response`: return the response text, or
`"Error: " + str(e)` when the call raises. -/
def generate_response (gen : GenOracle) (prompt : PyStr) (temperature : ℚ) : PyStr :=
  match gen prompt (some temperature) with
  | Except.ok text => text
  | Except.error e => ("Error: ".data) ++ e

/-- `main.py` line 64: the word-count menu dictionary. -/
def lengthChoices : List (PyStr × PyStr) :=
  [("1".data, "300".data), ("2".data, "900".data),
   ("3".data, "1200".data), ("4".data, "2000".data)]

/-- `main.py` line 64: `{"1": "300", ...}.get(word_count_choice, "300")`. -/
def lengthOf (word_count_choice : PyStr) : PyStr :=
  (lengthChoices.lookup word_count_choice).getD ("300".data)

/-- The record returned by `get_essay_details` (`main.py` lines 71-81). -/
structure EssayRequest where
  topic : PyStr
  essay_type : PyStr
  length : PyStr
  target_audience : PyStr
  specific_points : PyStr
  stance : PyStr
  references : PyStr
  writing_style : PyStr
  outline_needed : PyStr
deriving DecidableEq

/-- `main.py` lines 54-81, `get_essay_details`: read the nine fields in order;
returns the emitted events, the request record, and the rest of the input
stream. -/
def get_essay_details (inputs : List PyStr) :
    List Event × EssayRequest × List PyStr :=
  let (topic, i1) := nextInput inputs
  let (essay_type, i2) := nextInput i1
  let (word_count_choice, i3) := nextInput i2
  let (target_audience, i4) := nextInput i3
  let (specific_points, i5) := nextInput i4
  let (stance, i6) := nextInput i5
  let (references, i7) := nextInput i6
  let (writing_style, i8) := nextInput i7
  let (outline_raw, i9) := nextInput i8
  ([Event.print ("\n=== AI Writing Assistant ===\n".data),
    Event.ask ("What is the topic of your essay? ".data),
    Event.ask ("Essay type (e.g., Argumentative, Expository, Descriptive, Persuasive): ".data),
    Event.print ("\nSelect essay word count:".data),
    Event.print ("1. 300 words".data),
    Event.print ("2. 900 words".data),
    Event.print ("3. 1200 words".data),
    Event.print ("4. 2000 words".data),
    Event.ask ("Choice (1-4): ".data),
    Event.ask ("Target audience (e.g., High school students, College professors): ".data),
    Event.ask ("Any specific points to include? ".data),
    Event.ask ("Your stance (For, Against, Neutral): ".data),
    Event.ask ("Any quotes or references to include? ".data),
    Event.ask ("Preferred writing style (Formal, Conversational, Academic, Creative): ".data),
    Event.ask ("Would you like the AI to suggest an outline first? (Yes/No): ".data)],
   { topic := topic, essay_type := essay_type, length := lengthOf word_count_choice,
     target_audience := target_audience, specific_points := specific_points,
     stance := stance, references := references, writing_style := writing_style,
     outline_needed := pyLower outline_raw },
   i9)

/-- `main.py` lines 90-93: the outline prompt. -/
def outline_prompt (d : EssayRequest) : PyStr :=
  ("Create a clear outline for a ".data) ++ d.essay_type ++
    (" essay about '".data) ++ d.topic ++ ("', written in a ".data) ++
    d.writing_style ++ (" tone for ".data) ++ d.target_audience ++ (".".data)

/-- `main.py` lines 98-102: the introduction prompt. -/
def intro_prompt (d : EssayRequest) : PyStr :=
  ("Write an introduction for a ".data) ++ d.essay_type ++
    (" essay on '".data) ++ d.topic ++ ("' that supports a ".data) ++
    d.stance ++ (" stance. Use a ".data) ++ d.writing_style ++
    (" tone for ".data) ++ d.target_audience ++ (".".data)

/-- `main.py` lines 109-113: the full-draft body prompt. -/
def body_prompt (d : EssayRequest) : PyStr :=
  ("Write the full body (about ".data) ++ d.length ++
    (" words) of a ".data) ++ d.essay_type ++ (" essay on '".data) ++
    d.topic ++ ("', taking a ".data) ++ d.stance ++
    (" stance. Maintain a ".data) ++ d.writing_style ++
    (" tone for ".data) ++ d.target_audience ++ (".".data)

/-- `main.py` lines 118-120: the step-by-step body prompt. -/
def step_prompt (d : EssayRequest) : PyStr :=
  ("Write the essay body for '".data) ++ d.topic ++
    ("' step-by-step, explaining each argument and evidence clearly.".data)

/-- `main.py` lines 125-128: the conclusion prompt. -/
def conclusion_prompt (d : EssayRequest) : PyStr :=
  ("Write a conclusion for a ".data) ++ d.essay_type ++
    (" essay on '".data) ++ d.topic ++
    ("', summarizing the key arguments and reinforcing a ".data) ++
    d.stance ++ (" stance.".data)

/-- `main.py` lines 83-131, `generate_essay_content`: ask for a temperature
(defaulting to 0.3 on a parse failure), generate the optional outline, the
introduction, the body (full draft or step-by-step) and the conclusion,
displaying each result; returns the events and the rest of the input
stream. -/
def generate_essay_content (parseTemp : PyStr → Option ℚ) (gen : GenOracle)
    (details : EssayRequest) (inputs : List PyStr) :
    List Event × List PyStr :=
  let (tempInput, i1) := nextInput inputs
  let temperature : ℚ := (parseTemp tempInput).getD (3/10)
  let outlineEvents :=
    if details.outline_needed = ("yes".data) then
      [Event.genCall (outline_prompt details) (some temperature),
       Event.print ("\n=== Generated Outline ===".data),
       Event.print (generate_response gen (outline_prompt details) temperature)]
    else []
  let (bodyInput, i2) := nextInput i1
  let body_style := pyLower bodyInput
  let bodyEvents :=
    if pyStartsWith body_style ("f".data) then
      [Event.genCall (body_prompt details) (some temperature),
       Event.print ("\n=== Generated Full Body ===".data),
       Event.print (generate_response gen (body_prompt details) temperature)]
    else
      [Event.genCall (step_prompt details) (some temperature),
       Event.print ("\n=== Generated Step-by-Step Body ===".data),
       Event.print (generate_response gen (step_prompt details) temperature)]
  ([Event.ask ("Enter temperature (0.2=structured, 0.7=creative): ".data)] ++
   outlineEvents ++
   [Event.genCall (intro_prompt details) (some temperature),
    Event.print ("\n=== Generated Introduction ===".data),
    Event.print (generate_response gen (intro_prompt details) temperature),
    Event.ask ("Generate body step-by-step or full draft? (Step/Full): ".data)] ++
   bodyEvents ++
   [Event.genCall (conclusion_prompt details) (some temperature),
    Event.print ("\n=== Generated Conclusion ===".data),
    Event.print (generate_response gen (conclusion_prompt details) temperature)],
   i2)

/-- `main.py` lines 133-139, `feedback_and_refinement`. -/
def feedback_and_refinement (inputs : List PyStr) : List Event × List PyStr :=
  let (satisfaction, i1) := nextInput inputs
  if pyStrip satisfaction ≠ ("5".data) then
    let (feedback, i2) := nextInput i1
    ([Event.ask ("\nRate satisfaction (1–5): ".data),
      Event.ask ("What should be improved (tone, clarity, structure)? ".data),
      Event.print (("\nThank you! Feedback noted: ".data) ++ feedback)], i2)
  else
    ([Event.ask ("\nRate satisfaction (1–5): ".data),
      Event.print ("\n:tada: Glad you liked it!".data)], i1)

/-- `main.py` lines 141-147, `run_activity`: welcome, readiness gate
(`sys.exit(1)` on failure), then collector, orchestrator and feedback. -/
def run_activity (parseTemp : PyStr → Option ℚ) (gen : GenOracle)
    (inputs : List PyStr) : List Event :=
  let welcome := [Event.print ("\nWelcome to the AI Writing Assistant!\n".data)]
  let (probeEvents, ready) := gemini_ready_check gen
  if ready then
    let (collectEvents, details, i1) := get_essay_details inputs
    let (essayEvents, i2) := generate_essay_content parseTemp gen details i1
    let (fbEvents, _) := feedback_and_refinement i2
    welcome ++ probeEvents ++ collectEvents ++ essayEvents ++ fbEvents
  else
    welcome ++ probeEvents ++ [Event.exitCode 1]

/-- The whole program: module-level key validation (`main.py` lines 16-19),
then `run_activity`. -/
def program (rawKey : Option PyStr) (parseTemp : PyStr → Option ℚ)
    (gen : GenOracle) (inputs : List PyStr) : List Event :=
  if validApiKey rawKey then run_activity parseTemp gen inputs
  else [Event.print keyErrorMsg, Event.exitCode 1]

/-- The prompts of the generation calls of a trace, in order. -/
def genPrompts (tr : List Event) : List PyStr :=
  tr.filterMap fun e =>
    match e with
    | Event.genCall p _ => some p
    | _ => none

/-- The temperatures of the generation calls of a trace, in order. -/
def genTemps (tr : List Event) : List (Option ℚ) :=
  tr.filterMap fun e =>
    match e with
    | Event.genCall _ t => some t
    | _ => none

/-- The prompts of the `input()` calls of a trace, in order. -/
def askPrompts (tr : List Event) : List PyStr :=
  tr.filterMap fun e =>
    match e with
    | Event.ask p => some p
    | _ => none

/-- Whether a trace contains a `sys.exit`. -/
def hasExitEvent (tr : List Event) : Bool :=
  tr.any fun e =>
    match e with
    | Event.exitCode _ => true
    | _ => false

/-! ## Helper lemmas -/

/-- `{"1": "300", "2": "900", "3": "1200", "4": "2000"}.get(wc, "300")` as a
case split. -/
theorem lengthOf_eq (wc : PyStr) :
    lengthOf wc =
      if wc = ("1".data) then ("300".data)
      else if wc = ("2".data) then ("900".data)
      else if wc = ("3".data) then ("1200".data)
      else if wc = ("4".data) then ("2000".data)
      else ("300".data) := by
  simp only [lengthOf, lengthChoices, List.lookup]
  by_cases h1 : wc = ("1".data)
  · simp [h1]
  · have e1 := beq_false_of_ne h1
    by_cases h2 : wc = ("2".data)
    · simp [e1, h2]
    · have e2 := beq_false_of_ne h2
      by_cases h3 : wc = ("3".data)
      · simp [e1, e2, h3]
      · have e3 := beq_false_of_ne h3
        by_cases h4 : wc = ("4".data)
        · simp [e1, e2, e3, h4]
        · have e4 := beq_false_of_ne h4
          simp [e1, e2, e3, e4, h1, h2, h3, h4]

/-- ASCII lowering maps exactly `'f'` and `'F'` to `'f'`. -/
theorem toLower_f (c : Char) : (Char.toLower c = 'f') ↔ (c = 'f' ∨ c = 'F') := by
  have hc : c = Char.ofNat c.toNat := (Char.ofNat_toNat c).symm
  by_cases h : 65 ≤ c.toNat ∧ c.toNat ≤ 90
  case pos =>
    obtain ⟨hl, hu⟩ := h
    set n := c.toNat with hn
    interval_cases n <;> (rw [hc]; decide)
  case neg =>
    have ht : Char.toLower c = c := by
      simp only [Char.toLower]
      split
      next hcond => exact absurd ⟨hcond.1, hcond.2⟩ h
      next => rfl
    rw [ht]
    constructor
    · exact fun hf => Or.inl hf
    · rintro (rfl | rfl)
      · rfl
      · exact absurd ⟨by decide, by decide⟩ h

/-- `s.lower().startswith("f")` holds exactly when `s` starts with `'f'` or
`'F'`. -/
theorem lower_startsWith_f (s : PyStr) :
    pyStartsWith (pyLower s) ("f".data) =
      (pyStartsWith s ("f".data) || pyStartsWith s ("F".data)) := by
  cases s with
  | nil => rfl
  | cons c t =>
    simp only [pyStartsWith, pyLower, List.map, List.isPrefixOf, Bool.and_true]
    by_cases hf : c = 'f'
    · simp [hf]
    · by_cases hF : c = 'F'
      · simp [hF]
      · have hl : Char.toLower c ≠ 'f' := by
          intro he
          rcases (toLower_f c).1 he with h | h <;> contradiction
        simp [beq_false_of_ne (Ne.symm hl), beq_false_of_ne (Ne.symm hf),
          beq_false_of_ne (Ne.symm hF)]

/-- The generation calls one orchestration run issues, as a function of the
request and the body-mode input only. -/
theorem genPrompts_essay (pt : PyStr → Option ℚ) (gen : GenOracle)
    (d : EssayRequest) (tIn bodyIn : PyStr) (rest : List PyStr) :
    genPrompts ((generate_essay_content pt gen d (tIn :: bodyIn :: rest)).1) =
      (if d.outline_needed = ("yes".data) then [outline_prompt d] else []) ++
      [intro_prompt d,
       if pyStartsWith (pyLower bodyIn) ("f".data) then body_prompt d
       else step_prompt d,
       conclusion_prompt d] := by
  simp only [generate_essay_content, nextInput, genPrompts]
  split <;> split <;> simp_all [genPrompts]

/-! ## Claims -/

/-- Claim C1: for every orchestration step, if the remote generation call
raises, `generate_response` returns the text `"Error: " + reason` (prefixed
`"Error: "` and containing the reason), no `sys.exit` occurs in the
orchestration, and the sequence of generation calls issued is the same as
with any non-failing endpoint — every subsequent step still runs in order. -/
theorem C1_generation_error_fail_soft (pt : PyStr → Option ℚ) (gen gen2 : GenOracle)
    (d : EssayRequest) (inputs : List PyStr) (p : PyStr) (t : ℚ) (e : PyStr)
    (h : gen p (some t) = Except.error e) :
    generate_response gen p t = ("Error: ".data) ++ e ∧
    pyStartsWith (generate_response gen p t) ("Error: ".data) = true ∧
    e.isSuffixOf (generate_response gen p t) = true ∧
    hasExitEvent (generate_essay_content pt gen d inputs).1 = false ∧
    genPrompts (generate_essay_content pt gen d inputs).1 =
      genPrompts (generate_essay_content pt gen2 d inputs).1 := by
  have hval : generate_response gen p t = ("Error: ".data) ++ e := by
    simp [generate_response, h]
  refine ⟨hval, ?_, ?_, ?_, ?_⟩
  · rw [hval]
    simp [pyStartsWith, List.isPrefixOf_iff_prefix]
  · rw [hval]
    simp only [List.isSuffixOf_iff_suffix]
    exact List.suffix_append _ _
  · simp only [generate_essay_content, hasExitEvent]
    split <;> split <;> simp
  · simp only [generate_essay_content, genPrompts]
    split <;> split <;> simp

/-- Claim C1, witness: a failing endpoint at a concrete prompt. -/
theorem C1_witness :
    (fun (_ : PyStr) (_ : Option ℚ) =>
        (Except.error ("boom".data) : Except PyStr PyStr)) ("p".data)
      (some ((3 : ℚ)/10)) = Except.error ("boom".data) ∧
    generate_response (fun _ _ => Except.error ("boom".data)) ("p".data)
      ((3 : ℚ)/10) = ("Error: ".data) ++ ("boom".data) :=
  ⟨rfl, (C1_generation_error_fail_soft (fun _ => none)
      (fun _ _ => Except.error ("boom".data)) (fun _ _ => Except.ok [])
      ⟨[], [], [], [], [], [], [], [], []⟩ [] ("p".data) ((3 : ℚ)/10)
      ("boom".data) rfl).1⟩

/-- Claim C2: if the probe's generation call raises, `gemini_ready_check`
returns `false` and `run_activity` is the welcome print, the probe's
diagnostics and `sys.exit(1)` — in particular no `input()` prompt is ever
shown, so `get_essay_details` is never reached. -/
theorem C2_probe_failure_exits (pt : PyStr → Option ℚ) (gen : GenOracle)
    (inputs : List PyStr) (e : PyStr)
    (h : gen ("ping".data) none = Except.error e) :
    (gemini_ready_check gen).2 = false ∧
    run_activity pt gen inputs =
      [Event.print ("\nWelcome to the AI Writing Assistant!\n".data)] ++
        (gemini_ready_check gen).1 ++ [Event.exitCode 1] ∧
    askPrompts (run_activity pt gen inputs) = [] := by
  have h2 : (gemini_ready_check gen).2 = false := by
    simp [gemini_ready_check, h]
  refine ⟨h2, ?_, ?_⟩
  · simp only [run_activity, h2]
    simp
  · simp only [run_activity, h2]
    simp [gemini_ready_check, h, askPrompts]

/-- Claim C2, witness: an endpoint whose ping raises. -/
theorem C2_witness :
    (fun (_ : PyStr) (_ : Option ℚ) =>
        (Except.error ("down".data) : Except PyStr PyStr)) ("ping".data) none =
      Except.error ("down".data) ∧
    (gemini_ready_check (fun _ _ => Except.error ("down".data))).2 = false :=
  ⟨rfl, (C2_probe_failure_exits (fun _ => none)
      (fun _ _ => Except.error ("down".data)) [] ("down".data) rfl).1⟩

/-- Claim C3, counterexample: the credential `" AIzaExampleKey"` does not
start with `"AIza"`, yet the program accepts it (the key is stripped before
the check): the run attempts a remote generation call and never exits, so
the claim as stated — exit 1 for every credential not starting with
`"AIza"` — is false. -/
theorem C3_counterexample :
    pyStartsWith (" AIzaExampleKey".data) ("AIza".data) = false ∧
    validApiKey (some (" AIzaExampleKey".data)) = true ∧
    genPrompts (program (some (" AIzaExampleKey".data)) (fun _ => none)
      (fun _ _ => Except.ok ("pong".data)) []) ≠ [] ∧
    hasExitEvent (program (some (" AIzaExampleKey".data)) (fun _ => none)
      (fun _ _ => Except.ok ("pong".data)) []) = false := by
  decide

/-- Claim C3 (amended): for every credential that is absent or whose
whitespace-stripped value does not start with `"AIza"` (such as
`"sk-invalid"`), the program prints the diagnostic and terminates with exit
code 1 before any remote generation call and before any user interaction. -/
theorem C3_invalid_key_exits (raw : Option PyStr) (pt : PyStr → Option ℚ)
    (gen : GenOracle) (inputs : List PyStr)
    (h : raw = none ∨ pyStartsWith (pyStrip (raw.getD [])) ("AIza".data) = false) :
    program raw pt gen inputs = [Event.print keyErrorMsg, Event.exitCode 1] ∧
    genPrompts (program raw pt gen inputs) = [] ∧
    askPrompts (program raw pt gen inputs) = [] := by
  have hv : validApiKey raw = false := by
    rcases h with rfl | h
    · decide
    · simp [validApiKey, apiKeyOf, h]
  simp [program, hv, genPrompts, askPrompts]

/-- Claim C3, witness: the spec's scenario credential `"sk-invalid"`. -/
theorem C3_witness :
    pyStartsWith (pyStrip ("sk-invalid".data)) ("AIza".data) = false ∧
    program (some ("sk-invalid".data)) (fun _ => none) (fun _ _ => Except.ok [])
      [] = [Event.print keyErrorMsg, Event.exitCode 1] :=
  ⟨by decide, (C3_invalid_key_exits (some ("sk-invalid".data)) (fun _ => none)
      (fun _ _ => Except.ok []) [] (Or.inr (by decide))).1⟩

/-- Claim C4: the `length` field of the request returned by
`get_essay_details` is `"300"`, `"900"`, `"1200"`, `"2000"` for the selector
inputs `"1"`, `"2"`, `"3"`, `"4"`, and the default `"300"` for every other
selector input (the empty string included). -/
theorem C4_length_selector (topic essay_type wc : PyStr) (rest : List PyStr) :
    ((get_essay_details (topic :: essay_type :: wc :: rest)).2.1).length =
      if wc = ("1".data) then ("300".data)
      else if wc = ("2".data) then ("900".data)
      else if wc = ("3".data) then ("1200".data)
      else if wc = ("4".data) then ("2000".data)
      else ("300".data) := by
  simp only [get_essay_details, nextInput]
  exact lengthOf_eq wc

/-- Claim C5: when the temperature input fails numeric parsing, every
generation call of the run carries temperature 0.3, and the run's trace is
identical to that of a run whose input parsed to 0.3 — the failure is never
surfaced. -/
theorem C5_temperature_default (pt : PyStr → Option ℚ) (gen : GenOracle)
    (d : EssayRequest) (tIn : PyStr) (rest : List PyStr) (h : pt tIn = none) :
    (∀ p t, Event.genCall p t ∈ (generate_essay_content pt gen d (tIn :: rest)).1 →
      t = some ((3 : ℚ)/10)) ∧
    (∀ (pt2 : PyStr → Option ℚ) (tIn2 : PyStr), pt2 tIn2 = some ((3 : ℚ)/10) →
      (generate_essay_content pt gen d (tIn :: rest)).1 =
        (generate_essay_content pt2 gen d (tIn2 :: rest)).1) := by
  constructor
  · intro p t ht
    simp only [generate_essay_content, nextInput, h, Option.getD_none] at ht
    split at ht <;> split at ht <;> (simp at ht; tauto)
  · intro pt2 tIn2 h2
    simp only [generate_essay_content, nextInput, h, h2, Option.getD_none,
      Option.getD_some]

/-- Claim C5, witness: the unparsable input `"abc"` yields the same trace as
an input parsing to 0.3. -/
theorem C5_witness :
    (fun (_ : PyStr) => (none : Option ℚ)) ("abc".data) = none ∧
    (generate_essay_content (fun _ => none) (fun _ _ => Except.ok [])
        ⟨[], [], [], [], [], [], [], [], []⟩ (("abc".data) :: [])).1 =
      (generate_essay_content (fun _ => some ((3 : ℚ)/10)) (fun _ _ => Except.ok [])
        ⟨[], [], [], [], [], [], [], [], []⟩ (("0.3".data) :: [])).1 :=
  ⟨rfl, (C5_temperature_default (fun _ => none) (fun _ _ => Except.ok [])
      ⟨[], [], [], [], [], [], [], [], []⟩ ("abc".data) [] rfl).2
      (fun _ => some ((3 : ℚ)/10)) ("0.3".data) rfl⟩

/-- Claim C6: the orchestrator's trace takes the full-draft branch exactly
when the body-mode input starts with `'f'` or `'F'`, and every other input
(the empty string included) takes the step-by-step branch; the step prompt is
built from the `topic` field alone. -/
theorem C6_body_mode_branch (pt : PyStr → Option ℚ) (gen : GenOracle)
    (d : EssayRequest) (tIn bodyIn : PyStr) (rest : List PyStr) :
    (let T : ℚ := (pt tIn).getD (3/10)
     (generate_essay_content pt gen d (tIn :: bodyIn :: rest)).1 =
      [Event.ask ("Enter temperature (0.2=structured, 0.7=creative): ".data)] ++
      (if d.outline_needed = ("yes".data) then
         [Event.genCall (outline_prompt d) (some T),
          Event.print ("\n=== Generated Outline ===".data),
          Event.print (generate_response gen (outline_prompt d) T)]
       else []) ++
      [Event.genCall (intro_prompt d) (some T),
       Event.print ("\n=== Generated Introduction ===".data),
       Event.print (generate_response gen (intro_prompt d) T),
       Event.ask ("Generate body step-by-step or full draft? (Step/Full): ".data)] ++
      (if pyStartsWith bodyIn ("f".data) || pyStartsWith bodyIn ("F".data) then
         [Event.genCall (body_prompt d) (some T),
          Event.print ("\n=== Generated Full Body ===".data),
          Event.print (generate_response gen (body_prompt d) T)]
       else
         [Event.genCall (step_prompt d) (some T),
          Event.print ("\n=== Generated Step-by-Step Body ===".data),
          Event.print (generate_response gen (step_prompt d) T)]) ++
      [Event.genCall (conclusion_prompt d) (some T),
       Event.print ("\n=== Generated Conclusion ===".data),
       Event.print (generate_response gen (conclusion_prompt d) T)]) ∧
    step_prompt d = ("Write the essay body for '".data) ++ d.topic ++
      ("' step-by-step, explaining each argument and evidence clearly.".data) := by
  refine ⟨?_, rfl⟩
  simp only [generate_essay_content, nextInput]
  rw [lower_startsWith_f bodyIn]

/-- Claim C7, counterexample: for the rating `" 5"` — which is not exactly
`"5"` — the feedback step still prints the fixed acknowledgment and reads no
comment, because the code strips the rating before comparing; the claim's
"if and only if the rating string is exactly 5" is therefore false. -/
theorem C7_counterexample :
    (" 5".data) ≠ ("5".data) ∧
    (feedback_and_refinement ((" 5".data) :: ("ignored".data) :: [])).1 =
      [Event.ask ("\nRate satisfaction (1–5): ".data),
       Event.print ("\n:tada: Glad you liked it!".data)] := by
  decide

/-- Claim C7 (amended): the fixed acknowledgment is printed if and only if
the whitespace-stripped rating equals `"5"`; for every other rating one
additional comment is read and echoed back. -/
theorem C7_feedback_branch (rating : PyStr) (rest : List PyStr) :
    (pyStrip rating = ("5".data) →
      (feedback_and_refinement (rating :: rest)).1 =
        [Event.ask ("\nRate satisfaction (1–5): ".data),
         Event.print ("\n:tada: Glad you liked it!".data)]) ∧
    (pyStrip rating ≠ ("5".data) →
      (feedback_and_refinement (rating :: rest)).1 =
        [Event.ask ("\nRate satisfaction (1–5): ".data),
         Event.ask ("What should be improved (tone, clarity, structure)? ".data),
         Event.print (("\nThank you! Feedback noted: ".data) ++ (nextInput rest).1)]) := by
  constructor <;> intro h <;> simp [feedback_and_refinement, nextInput, h]

/-- Claim C7, witness: rating `"5"` gets the acknowledgment. -/
theorem C7_witness :
    pyStrip ("5".data) = ("5".data) ∧
    (feedback_and_refinement (("5".data) :: [])).1 =
      [Event.ask ("\nRate satisfaction (1–5): ".data),
       Event.print ("\n:tada: Glad you liked it!".data)] :=
  ⟨by decide, (C7_feedback_branch ("5".data) []).1 (by decide)⟩

/-- Claim C8: the outline generation call occurs exactly when the
outline-needed input lowercases to `"yes"`, and its prompt is built from the
essay-type, topic, writing-style and target-audience inputs. -/
theorem C8_outline_conditional (pt : PyStr → Option ℚ) (gen : GenOracle)
    (topic et wc ta sp st rf ws oRaw tIn bodyIn : PyStr) (rest : List PyStr)
    (d : EssayRequest)
    (hd : (get_essay_details
      (topic :: et :: wc :: ta :: sp :: st :: rf :: ws :: oRaw :: [])).2.1 = d) :
    (pyLower oRaw = ("yes".data) →
       genPrompts ((generate_essay_content pt gen d (tIn :: bodyIn :: rest)).1) =
         [outline_prompt d, intro_prompt d,
          if pyStartsWith (pyLower bodyIn) ("f".data) then body_prompt d
          else step_prompt d,
          conclusion_prompt d]) ∧
    (pyLower oRaw ≠ ("yes".data) →
       genPrompts ((generate_essay_content pt gen d (tIn :: bodyIn :: rest)).1) =
         [intro_prompt d,
          if pyStartsWith (pyLower bodyIn) ("f".data) then body_prompt d
          else step_prompt d,
          conclusion_prompt d]) ∧
    outline_prompt d = ("Create a clear outline for a ".data) ++ et ++
      (" essay about '".data) ++ topic ++ ("', written in a ".data) ++ ws ++
      (" tone for ".data) ++ ta ++ (".".data) := by
  subst hd
  have hon : (get_essay_details
      (topic :: et :: wc :: ta :: sp :: st :: rf :: ws :: oRaw :: [])).2.1.outline_needed =
      pyLower oRaw := rfl
  refine ⟨?_, ?_, rfl⟩ <;> intro h <;> rw [genPrompts_essay] <;> simp [hon, h]

/-- Claim C8, witness: outline input `"Yes"` produces the outline call. -/
theorem C8_witness :
    pyLower ("Yes".data) = ("yes".data) ∧
    genPrompts ((generate_essay_content (fun _ => none) (fun _ _ => Except.ok [])
        ((get_essay_details (("t".data) :: ("e".data) :: ("1".data) :: ("a".data) ::
          ("p".data) :: ("s".data) :: ("r".data) :: ("w".data) :: ("Yes".data) :: [])).2.1)
        (("0.5".data) :: ("step".data) :: [])).1) =
      [outline_prompt ((get_essay_details (("t".data) :: ("e".data) :: ("1".data) ::
          ("a".data) :: ("p".data) :: ("s".data) :: ("r".data) :: ("w".data) ::
          ("Yes".data) :: [])).2.1),
       intro_prompt ((get_essay_details (("t".data) :: ("e".data) :: ("1".data) ::
          ("a".data) :: ("p".data) :: ("s".data) :: ("r".data) :: ("w".data) ::
          ("Yes".data) :: [])).2.1),
       if pyStartsWith (pyLower ("step".data)) ("f".data) then
         body_prompt ((get_essay_details (("t".data) :: ("e".data) :: ("1".data) ::
            ("a".data) :: ("p".data) :: ("s".data) :: ("r".data) :: ("w".data) ::
            ("Yes".data) :: [])).2.1)
       else
         step_prompt ((get_essay_details (("t".data) :: ("e".data) :: ("1".data) ::
            ("a".data) :: ("p".data) :: ("s".data) :: ("r".data) :: ("w".data) ::
            ("Yes".data) :: [])).2.1),
       conclusion_prompt ((get_essay_details (("t".data) :: ("e".data) :: ("1".data) ::
          ("a".data) :: ("p".data) :: ("s".data) :: ("r".data) :: ("w".data) ::
          ("Yes".data) :: [])).2.1)] :=
  ⟨by decide, (C8_outline_conditional (fun _ => none) (fun _ _ => Except.ok [])
      ("t".data) ("e".data) ("1".data) ("a".data) ("p".data) ("s".data)
      ("r".data) ("w".data) ("Yes".data) ("0.5".data) ("step".data) [] _ rfl).1
      (by decide)⟩

/-- Claim C9: in the spec's scenario (word-count choice `"2"`, outline
`"yes"`, body choice `"Full"`), the length resolves to `"900"` and the trace
is exactly: temperature prompt, then the outline, introduction, full-body
and conclusion generation calls in that order, each one issued only after
the previous step's result was printed. -/
theorem C9_scenario_trace (pt : PyStr → Option ℚ) (gen : GenOracle)
    (ta sp st rf ws tIn : PyStr) (rest : List PyStr) :
    let d := (get_essay_details (("climate policy".data) :: ("Argumentative".data) ::
      ("2".data) :: ta :: sp :: st :: rf :: ws :: ("yes".data) :: [])).2.1
    let T : ℚ := (pt tIn).getD (3/10)
    d.length = ("900".data) ∧
    (generate_essay_content pt gen d (tIn :: ("Full".data) :: rest)).1 =
      [Event.ask ("Enter temperature (0.2=structured, 0.7=creative): ".data),
       Event.genCall (outline_prompt d) (some T),
       Event.print ("\n=== Generated Outline ===".data),
       Event.print (generate_response gen (outline_prompt d) T),
       Event.genCall (intro_prompt d) (some T),
       Event.print ("\n=== Generated Introduction ===".data),
       Event.print (generate_response gen (intro_prompt d) T),
       Event.ask ("Generate body step-by-step or full draft? (Step/Full): ".data),
       Event.genCall (body_prompt d) (some T),
       Event.print ("\n=== Generated Full Body ===".data),
       Event.print (generate_response gen (body_prompt d) T),
       Event.genCall (conclusion_prompt d) (some T),
       Event.print ("\n=== Generated Conclusion ===".data),
       Event.print (generate_response gen (conclusion_prompt d) T)] := by
  exact ⟨rfl, rfl⟩

/-- Claim C10: the credential is stripped before validation — a whitespace-only
credential behaves exactly like an absent one and the program exits with the
diagnostic and code 1 — and every accepted credential has a non-empty
stripped value that starts with `"AIza"`. -/
theorem C10_key_stripped (pt : PyStr → Option ℚ) (gen : GenOracle)
    (inputs : List PyStr) (s raw : PyStr)
    (hws : ∀ c ∈ s, isPySpace c = true) :
    program (some s) pt gen inputs = program none pt gen inputs ∧
    program (some s) pt gen inputs = [Event.print keyErrorMsg, Event.exitCode 1] ∧
    (validApiKey (some raw) = true →
      pyStrip raw ≠ [] ∧ pyStartsWith (pyStrip raw) ("AIza".data) = true) := by
  have hstrip : pyStrip s = [] := by
    have h1 : s.dropWhile isPySpace = [] := by
      rw [List.dropWhile_eq_nil_iff]
      exact fun c hc => hws c hc
    simp [pyStrip, h1]
  have hv : validApiKey (some s) = false := by
    simp [validApiKey, apiKeyOf, hstrip]
  have hv0 : validApiKey none = false := by decide
  refine ⟨?_, ?_, ?_⟩
  · simp [program, hv, hv0]
  · simp [program, hv]
  · intro h
    simp only [validApiKey, apiKeyOf, Option.getD_some, Bool.and_eq_true,
      Bool.not_eq_true'] at h
    refine ⟨?_, h.2⟩
    intro hnil
    rw [hnil] at h
    simp at h

/-- Claim C10, witness: the whitespace-only credential `" "` is rejected like
an absent one. -/
theorem C10_witness :
    (∀ c ∈ (" ".data), isPySpace c = true) ∧
    program (some (" ".data)) (fun _ => none) (fun _ _ => Except.ok []) [] =
      program none (fun _ => none) (fun _ _ => Except.ok []) [] :=
  ⟨by decide, (C10_key_stripped (fun _ => none) (fun _ _ => Except.ok []) []
      (" ".data) ("AIzaK".data) (by decide)).1⟩
